import Mathlib

/-!
Verification of the DCF (discounted cash flow) valuation engine
`_calculate_dcf_value` from `src/tools/valuation_analysis.py`.

The Python function is embedded over ℝ (real-number idealization of
Python float arithmetic).  The two ways the Python code can fail to
return a result dictionary are modelled explicitly:

* returning `{"error": msg}` for insufficient data becomes
  `.error (.insufficientData msg)`;
* a raised exception becomes an `.error` value: `projected_cash_flows[-1]`
  on an empty list raises `IndexError` (modelled as `.indexError`), and a
  float division whose divisor is zero raises `ZeroDivisionError`
  (modelled as `.zeroDivision`).
-/

/-- The result dictionary built at the end of `_calculate_dcf_value`
(lines 68-76 of `valuation_analysis.py`), one field per key. -/
structure DCFResult where
  enterprise_value : ℝ
  pv_cash_flows : ℝ
  pv_terminal_value : ℝ
  terminal_value : ℝ
  forecast_growth_rate : ℝ
  historical_growth : ℝ
  projected_cash_flows : List ℝ

/-- The ways `_calculate_dcf_value` can fail to produce a result
dictionary: the two explicit `{"error": ...}` returns (lines 33 and 38),
the `IndexError` raised by `projected_cash_flows[-1]` when the projection
list is empty (line 55), and the `ZeroDivisionError` raised by float
division by zero (lines 56, 61 and 64). -/
inductive DCFError where
  | insufficientData (msg : String)
  | indexError
  | zeroDivision
  deriving DecidableEq

/-- Line 36: `cash_flows = [cf for cf in cash_flows if cf > 0]`. -/
noncomputable def filterPositive : List ℝ → List ℝ
  | [] => []
  | cf :: rest => if 0 < cf then cf :: filterPositive rest else filterPositive rest

/-- Line 41: `historical_growth = (cash_flows[-1] / cash_flows[0]) ** (1 / (len(cash_flows) - 1)) - 1`,
applied to the filtered list.  `**` with positive base is real exponentiation
(`Real.rpow`).  `cash_flows[-1]` and `cash_flows[0]` are total here because the
caller has already checked the filtered list has at least 2 elements. -/
noncomputable def historical_growth_of (cfs : List ℝ) : ℝ :=
  (cfs.getLastD 0 / cfs.headD 0) ^ ((1 : ℝ) / ((cfs.length : ℝ) - 1)) - 1

/-- Line 44: `forecast_growth_rate = min(historical_growth, 0.15)`. -/
noncomputable def forecast_growth_rate_of (cfs : List ℝ) : ℝ :=
  min (historical_growth_of cfs) 0.15

/-- Lines 47-52: the loop `for year in range(1, forecast_years + 1)` that
appends `last_cf * (1 + forecast_growth_rate) ** year`. -/
noncomputable def projected_cash_flows_of (cfs : List ℝ) (forecast_years : ℕ) : List ℝ :=
  (List.range' 1 forecast_years).map
    (fun year => cfs.getLastD 0 * (1 + forecast_growth_rate_of cfs) ^ year)

/-- Lines 59-62: the loop `for i, cf in enumerate(projected_cash_flows, 1)`
that appends `cf / (1 + discount_rate) ** i`; the first argument threads the
1-based enumeration index. -/
noncomputable def pv_list_from (discount_rate : ℝ) : ℕ → List ℝ → List ℝ
  | _, [] => []
  | i, cf :: rest => cf / (1 + discount_rate) ^ i :: pv_list_from discount_rate (i + 1) rest

/-- The result dictionary that `_calculate_dcf_value` returns on the success
path, written as a function of the inputs (lines 54-76). -/
noncomputable def dcfOkResult (cash_flows : List ℝ) (terminal_growth_rate discount_rate : ℝ)
    (forecast_years : ℕ) : DCFResult :=
  let cfs := filterPositive cash_flows
  let projected := projected_cash_flows_of cfs forecast_years
  let terminal_cf := projected.getLastD 0 * (1 + terminal_growth_rate)
  let terminal_value := terminal_cf / (discount_rate - terminal_growth_rate)
  let pv_sum := (pv_list_from discount_rate 1 projected).sum
  let pv_terminal := terminal_value / (1 + discount_rate) ^ forecast_years
  ⟨pv_sum + pv_terminal, pv_sum, pv_terminal, terminal_value,
   forecast_growth_rate_of cfs, historical_growth_of cfs, projected⟩

/-- Shallow embedding of `_calculate_dcf_value` (lines 18-76 of
`valuation_analysis.py`).  Control flow follows the source line by line:

* line 32: `if len(cash_flows) < 2` → first `insufficientData` return;
* lines 36-38: filter positives, `if len(cash_flows) < 2` again → second
  `insufficientData` return;
* line 55: `projected_cash_flows[-1]` raises `IndexError` when the
  projection list is empty (i.e. `forecast_years = 0`);
* line 56: the division by `discount_rate - terminal_growth_rate` raises
  `ZeroDivisionError` when that difference is zero;
* lines 61/64: once the projection list is nonempty the loop divides by
  `(1 + discount_rate) ** i` with `i ≥ 1`, which raises `ZeroDivisionError`
  exactly when `1 + discount_rate = 0`;
* lines 68-76: otherwise the result dictionary is returned. -/
noncomputable def _calculate_dcf_value (cash_flows : List ℝ)
    (terminal_growth_rate discount_rate : ℝ) (forecast_years : ℕ) :
    Except DCFError DCFResult :=
  if cash_flows.length < 2 then
    .error (.insufficientData "Insufficient cash flow data for DCF calculation")
  else
    let cfs := filterPositive cash_flows
    if cfs.length < 2 then
      .error (.insufficientData "Insufficient positive cash flow data")
    else
      let projected := projected_cash_flows_of cfs forecast_years
      match projected.getLast? with
      | none => .error .indexError
      | some _ =>
        if discount_rate - terminal_growth_rate = 0 then
          .error .zeroDivision
        else if 1 + discount_rate = 0 then
          .error .zeroDivision
        else
          .ok (dcfOkResult cash_flows terminal_growth_rate discount_rate forecast_years)

theorem length_filterPositive_le (l : List ℝ) : (filterPositive l).length ≤ l.length := by
  induction l with
  | nil => simp [filterPositive]
  | cons cf rest ih =>
    by_cases h : 0 < cf
    · simpa [filterPositive, h] using ih
    · simp only [filterPositive, if_neg h, List.length_cons]
      exact le_trans ih (Nat.le_succ _)

theorem pos_of_mem_filterPositive {l : List ℝ} {x : ℝ} (hx : x ∈ filterPositive l) : 0 < x := by
  induction l with
  | nil => simp [filterPositive] at hx
  | cons cf rest ih =>
    by_cases h : 0 < cf
    · simp only [filterPositive, if_pos h, List.mem_cons] at hx
      rcases hx with rfl | hx
      · exact h
      · exact ih hx
    · simp only [filterPositive, if_neg h] at hx
      exact ih hx

theorem filterPositive_idem (l : List ℝ) : filterPositive (filterPositive l) = filterPositive l := by
  induction l with
  | nil => simp [filterPositive]
  | cons cf rest ih =>
    by_cases h : 0 < cf
    · simp [filterPositive, h, ih]
    · simp [filterPositive, h, ih]

theorem headD_pos_of_all_pos {l : List ℝ} (h : l ≠ []) (hall : ∀ x ∈ l, 0 < x) :
    0 < l.headD 0 := by
  cases l with
  | nil => exact absurd rfl h
  | cons x rest => simpa using hall x (by simp)

theorem getLastD_pos_of_all_pos {l : List ℝ} (h : l ≠ []) (hall : ∀ x ∈ l, 0 < x) :
    0 < l.getLastD 0 := by
  rw [List.getLastD_eq_getLast?, List.getLast?_eq_getLast l h, Option.getD_some]
  exact hall _ (List.getLast_mem h)

theorem length_projected (cfs : List ℝ) (fy : ℕ) :
    (projected_cash_flows_of cfs fy).length = fy := by
  simp [projected_cash_flows_of]

theorem getLast?_projected (cfs : List ℝ) {fy : ℕ} (h : fy ≠ 0) :
    (projected_cash_flows_of cfs fy).getLast? =
      some (cfs.getLastD 0 * (1 + forecast_growth_rate_of cfs) ^ fy) := by
  simp [projected_cash_flows_of, List.getLast?_map, List.getLast?_range', h,
    Nat.add_sub_cancel_left]

theorem getD_projected (cfs : List ℝ) {fy k : ℕ} (h : k < fy) :
    (projected_cash_flows_of cfs fy).getD k 0 =
      cfs.getLastD 0 * (1 + forecast_growth_rate_of cfs) ^ (k + 1) := by
  rw [List.getD_eq_getElem?_getD, projected_cash_flows_of, List.getElem?_map,
    List.getElem?_range' _ _ h]
  simp [Nat.add_comm]

theorem sum_pv_list_from (dr : ℝ) (f : ℕ → ℝ) :
    ∀ (n i : ℕ), (pv_list_from dr i ((List.range' i n).map f)).sum =
      ∑ k ∈ Finset.range n, f (i + k) / (1 + dr) ^ (i + k) := by
  intro n
  induction n with
  | zero => intro i; simp [pv_list_from]
  | succ n ih =>
    intro i
    rw [List.range'_succ, List.map_cons]
    simp only [pv_list_from, List.sum_cons]
    rw [ih (i + 1), Finset.sum_range_succ']
    rw [add_comm]
    congr 1
    refine Finset.sum_congr rfl fun k _ => ?_
    rw [show i + 1 + k = i + (k + 1) from by omega]

theorem dcf_eq_ok {cash_flows : List ℝ} {tgr dr : ℝ} {fy : ℕ}
    (h2 : 2 ≤ (filterPositive cash_flows).length) (hfy : fy ≠ 0)
    (hd : dr - tgr ≠ 0) (h1 : (1 : ℝ) + dr ≠ 0) :
    _calculate_dcf_value cash_flows tgr dr fy = .ok (dcfOkResult cash_flows tgr dr fy) := by
  have hlen : ¬ cash_flows.length < 2 :=
    not_lt.2 (le_trans h2 (length_filterPositive_le _))
  have hflen : ¬ (filterPositive cash_flows).length < 2 := not_lt.2 h2
  simp only [_calculate_dcf_value, if_neg hlen, if_neg hflen,
    getLast?_projected _ hfy, if_neg hd, if_neg h1]

theorem dcf_ok_inv {cash_flows : List ℝ} {tgr dr : ℝ} {fy : ℕ} {res : DCFResult}
    (h : _calculate_dcf_value cash_flows tgr dr fy = .ok res) :
    2 ≤ (filterPositive cash_flows).length ∧ fy ≠ 0 ∧ dr - tgr ≠ 0 ∧ (1 : ℝ) + dr ≠ 0 ∧
      res = dcfOkResult cash_flows tgr dr fy := by
  by_cases hlen : cash_flows.length < 2
  · simp [_calculate_dcf_value, hlen] at h
  by_cases hflen : (filterPositive cash_flows).length < 2
  · simp [_calculate_dcf_value, hlen, hflen] at h
  have h2 : 2 ≤ (filterPositive cash_flows).length := not_lt.1 hflen
  by_cases hfy : fy = 0
  · subst hfy
    simp [_calculate_dcf_value, hlen, hflen, projected_cash_flows_of] at h
  by_cases hd : dr - tgr = 0
  · simp [_calculate_dcf_value, hlen, hflen, getLast?_projected _ hfy, hd] at h
  by_cases h1 : (1 : ℝ) + dr = 0
  · simp [_calculate_dcf_value, hlen, hflen, getLast?_projected _ hfy, hd, h1] at h
  have heq := dcf_eq_ok h2 hfy hd h1
  rw [heq, Except.ok.injEq] at h
  exact ⟨h2, hfy, hd, h1, h.symm⟩

theorem dcf_fy_zero {cash_flows : List ℝ} {tgr dr : ℝ}
    (h2 : 2 ≤ (filterPositive cash_flows).length) :
    _calculate_dcf_value cash_flows tgr dr 0 = .error .indexError := by
  have hlen : ¬ cash_flows.length < 2 :=
    not_lt.2 (le_trans h2 (length_filterPositive_le _))
  have hflen : ¬ (filterPositive cash_flows).length < 2 := not_lt.2 h2
  simp [_calculate_dcf_value, hlen, hflen, projected_cash_flows_of]

theorem dcf_discount_eq_terminal {cash_flows : List ℝ} {tgr dr : ℝ} {fy : ℕ}
    (h2 : 2 ≤ (filterPositive cash_flows).length) (hfy : fy ≠ 0)
    (hd : dr - tgr = 0) :
    _calculate_dcf_value cash_flows tgr dr fy = .error .zeroDivision := by
  have hlen : ¬ cash_flows.length < 2 :=
    not_lt.2 (le_trans h2 (length_filterPositive_le _))
  have hflen : ¬ (filterPositive cash_flows).length < 2 := not_lt.2 h2
  simp [_calculate_dcf_value, hlen, hflen, getLast?_projected _ hfy, hd]

theorem dcf_discount_neg_one {cash_flows : List ℝ} {tgr : ℝ} {fy : ℕ}
    (h2 : 2 ≤ (filterPositive cash_flows).length) (hfy : fy ≠ 0)
    (hd : (-1 : ℝ) - tgr ≠ 0) :
    _calculate_dcf_value cash_flows tgr (-1) fy = .error .zeroDivision := by
  have hlen : ¬ cash_flows.length < 2 :=
    not_lt.2 (le_trans h2 (length_filterPositive_le _))
  have hflen : ¬ (filterPositive cash_flows).length < 2 := not_lt.2 h2
  have h1 : (1 : ℝ) + -1 = 0 := by norm_num
  simp [_calculate_dcf_value, hlen, hflen, getLast?_projected _ hfy, hd, h1]

theorem getLastD_projected (cfs : List ℝ) {fy : ℕ} (h : fy ≠ 0) :
    (projected_cash_flows_of cfs fy).getLastD 0 =
      cfs.getLastD 0 * (1 + forecast_growth_rate_of cfs) ^ fy := by
  rw [List.getLastD_eq_getLast?, getLast?_projected _ h, Option.getD_some]

theorem neg_one_lt_forecast_growth {l : List ℝ} (h : filterPositive l ≠ []) :
    -1 < forecast_growth_rate_of (filterPositive l) := by
  have hlast := getLastD_pos_of_all_pos h (fun x hx => pos_of_mem_filterPositive hx)
  have hhead := headD_pos_of_all_pos h (fun x hx => pos_of_mem_filterPositive hx)
  have hr : (0 : ℝ) < ((filterPositive l).getLastD 0 / (filterPositive l).headD 0) ^
      ((1 : ℝ) / (((filterPositive l).length : ℝ) - 1)) :=
    Real.rpow_pos_of_pos (div_pos hlast hhead) _
  rw [forecast_growth_rate_of]
  refine lt_min ?_ (by norm_num)
  rw [historical_growth_of]
  linarith

theorem enterprise_value_formula {cash_flows : List ℝ} {tgr dr : ℝ} {fy : ℕ} (hfy : fy ≠ 0) :
    (dcfOkResult cash_flows tgr dr fy).enterprise_value =
      (∑ k ∈ Finset.range fy,
          (filterPositive cash_flows).getLastD 0 *
            (1 + forecast_growth_rate_of (filterPositive cash_flows)) ^ (k + 1) /
            (1 + dr) ^ (k + 1)) +
        (filterPositive cash_flows).getLastD 0 *
            (1 + forecast_growth_rate_of (filterPositive cash_flows)) ^ fy * (1 + tgr) /
          ((dr - tgr) * (1 + dr) ^ fy) := by
  simp only [dcfOkResult]
  rw [getLastD_projected _ hfy, projected_cash_flows_of, sum_pv_list_from, div_div]
  congr 1
  refine Finset.sum_congr rfl fun k _ => ?_
  rw [show 1 + k = k + 1 from by omega]

theorem terminal_value_formula {cash_flows : List ℝ} {tgr dr : ℝ} {fy : ℕ} (hfy : fy ≠ 0) :
    (dcfOkResult cash_flows tgr dr fy).terminal_value =
      (filterPositive cash_flows).getLastD 0 *
        (1 + forecast_growth_rate_of (filterPositive cash_flows)) ^ fy * (1 + tgr) /
        (dr - tgr) := by
  simp only [dcfOkResult]
  rw [getLastD_projected _ hfy]

theorem filterPositive_const : filterPositive ([100, 100, 100] : List ℝ) = [100, 100, 100] := by
  norm_num [filterPositive]

theorem historical_growth_const : historical_growth_of ([100, 100, 100] : List ℝ) = 0 := by
  rw [historical_growth_of]
  simp only [List.getLastD_eq_getLast?, List.headD_eq_head?]
  norm_num

theorem forecast_growth_const : forecast_growth_rate_of ([100, 100, 100] : List ℝ) = 0 := by
  rw [forecast_growth_rate_of, historical_growth_const]
  norm_num [min_def]

theorem filterPositive_pair : filterPositive ([100, 1000] : List ℝ) = [100, 1000] := by
  norm_num [filterPositive]

theorem historical_growth_pair : historical_growth_of ([100, 1000] : List ℝ) = 9 := by
  rw [historical_growth_of]
  simp only [List.getLastD_eq_getLast?, List.headD_eq_head?]
  norm_num

theorem forecast_growth_pair : forecast_growth_rate_of ([100, 1000] : List ℝ) = 0.15 := by
  rw [forecast_growth_rate_of, historical_growth_pair]
  norm_num [min_def]

theorem dcf_eval_const :
    _calculate_dcf_value [100, 100, 100] 0.025 0.10 5 =
      .ok (dcfOkResult [100, 100, 100] 0.025 0.10 5) :=
  dcf_eq_ok (by rw [filterPositive_const]; norm_num) (by norm_num) (by norm_num) (by norm_num)

theorem dcf_eval_pair :
    _calculate_dcf_value [100, 1000] 0.025 0.10 5 =
      .ok (dcfOkResult [100, 1000] 0.025 0.10 5) :=
  dcf_eq_ok (by rw [filterPositive_pair]; norm_num) (by norm_num) (by norm_num) (by norm_num)

/-- C1: for every input the DCF engine accepts, the returned
`enterprise_value` equals the sum over `k = 1..forecast_years` of
`projected[k] / (1 + discount_rate)^k` plus the discounted terminal value,
and hence equals `pv_cash_flows + pv_terminal_value`. -/
theorem C1_enterprise_value_decomposition
    (cash_flows : List ℝ) (tgr dr : ℝ) (fy : ℕ) (res : DCFResult)
    (h : _calculate_dcf_value cash_flows tgr dr fy = .ok res) :
    res.enterprise_value =
      (∑ k ∈ Finset.range fy, res.projected_cash_flows.getD k 0 / (1 + dr) ^ (k + 1)) +
        res.pv_terminal_value ∧
      res.enterprise_value = res.pv_cash_flows + res.pv_terminal_value := by
  obtain ⟨h2, hfy, hd, h1, rfl⟩ := dcf_ok_inv h
  constructor
  · simp only [dcfOkResult]
    have hrw : ∀ k ∈ Finset.range fy,
        (projected_cash_flows_of (filterPositive cash_flows) fy).getD k 0 / (1 + dr) ^ (k + 1) =
          (filterPositive cash_flows).getLastD 0 *
            (1 + forecast_growth_rate_of (filterPositive cash_flows)) ^ (k + 1) /
            (1 + dr) ^ (k + 1) := fun k hk => by
      rw [getD_projected _ (Finset.mem_range.1 hk)]
    rw [Finset.sum_congr rfl hrw]
    congr 1
    rw [projected_cash_flows_of, sum_pv_list_from]
    refine Finset.sum_congr rfl fun k _ => ?_
    rw [show 1 + k = k + 1 from by omega]
  · rfl

/-- Witness for C1 at `cash_flows = [100, 100, 100]`, default parameters. -/
theorem C1_enterprise_value_decomposition_witness :
    (dcfOkResult [100, 100, 100] 0.025 0.10 5).enterprise_value =
      (∑ k ∈ Finset.range 5,
          (dcfOkResult [100, 100, 100] 0.025 0.10 5).projected_cash_flows.getD k 0 /
            (1 + 0.10) ^ (k + 1)) +
        (dcfOkResult [100, 100, 100] 0.025 0.10 5).pv_terminal_value ∧
      (dcfOkResult [100, 100, 100] 0.025 0.10 5).enterprise_value =
        (dcfOkResult [100, 100, 100] 0.025 0.10 5).pv_cash_flows +
          (dcfOkResult [100, 100, 100] 0.025 0.10 5).pv_terminal_value :=
  C1_enterprise_value_decomposition [100, 100, 100] 0.025 0.10 5 _ dcf_eval_const

/-- C2: for every accepted input, the returned `historical_growth` equals
the CAGR `(cf[n-1] / cf[0]) ** (1 / (n-1)) - 1` of the filtered
strictly-positive series. -/
theorem C2_historical_growth_is_cagr
    (cash_flows : List ℝ) (tgr dr : ℝ) (fy : ℕ) (res : DCFResult)
    (h : _calculate_dcf_value cash_flows tgr dr fy = .ok res) :
    res.historical_growth =
      ((filterPositive cash_flows).getLastD 0 / (filterPositive cash_flows).headD 0) ^
        ((1 : ℝ) / (((filterPositive cash_flows).length : ℝ) - 1)) - 1 := by
  obtain ⟨-, -, -, -, rfl⟩ := dcf_ok_inv h
  rfl

/-- Witness for C2: the constant series `[100, 100, 100]` yields
`historical_growth = 0`. -/
theorem C2_historical_growth_is_cagr_witness :
    (dcfOkResult [100, 100, 100] 0.025 0.10 5).historical_growth = 0 := by
  rw [C2_historical_growth_is_cagr [100, 100, 100] 0.025 0.10 5 _ dcf_eval_const,
    filterPositive_const]
  exact historical_growth_const

/-- C3: for every accepted input, `forecast_growth_rate` equals
`min(historical_growth, 0.15)`, in particular it never exceeds 0.15 and no
lower floor is applied. -/
theorem C3_forecast_growth_is_capped
    (cash_flows : List ℝ) (tgr dr : ℝ) (fy : ℕ) (res : DCFResult)
    (h : _calculate_dcf_value cash_flows tgr dr fy = .ok res) :
    res.forecast_growth_rate = min res.historical_growth 0.15 ∧
      res.forecast_growth_rate ≤ 0.15 := by
  obtain ⟨-, -, -, -, rfl⟩ := dcf_ok_inv h
  exact ⟨rfl, min_le_right _ _⟩

/-- Witness for C3: input `[100, 1000]` (one CAGR step of 900%) yields
`forecast_growth_rate = 0.15` exactly. -/
theorem C3_forecast_growth_is_capped_witness :
    (dcfOkResult [100, 1000] 0.025 0.10 5).forecast_growth_rate = 0.15 := by
  rw [(C3_forecast_growth_is_capped [100, 1000] 0.025 0.10 5 _ dcf_eval_pair).1]
  have h9 : (dcfOkResult [100, 1000] 0.025 0.10 5).historical_growth = 9 := by
    show historical_growth_of (filterPositive [100, 1000]) = 9
    rw [filterPositive_pair, historical_growth_pair]
  rw [h9]
  norm_num [min_def]

/-- C4: for every accepted input, `projected_cash_flows` has length exactly
`forecast_years` and its k-th element (0-indexed `k`, year `k+1`) equals
`cf[n-1] * (1 + forecast_growth_rate)^(k+1)`, compounding from the last
retained positive cash flow. -/
theorem C4_projection_length_and_values
    (cash_flows : List ℝ) (tgr dr : ℝ) (fy : ℕ) (res : DCFResult)
    (h : _calculate_dcf_value cash_flows tgr dr fy = .ok res) :
    res.projected_cash_flows.length = fy ∧
      ∀ k : ℕ, k < fy → res.projected_cash_flows.getD k 0 =
        (filterPositive cash_flows).getLastD 0 * (1 + res.forecast_growth_rate) ^ (k + 1) := by
  obtain ⟨-, -, -, -, rfl⟩ := dcf_ok_inv h
  exact ⟨length_projected _ _, fun k hk => getD_projected _ hk⟩

/-- Witness for C4 at `[100, 100, 100]`, default parameters, year 3. -/
theorem C4_projection_length_and_values_witness :
    (dcfOkResult [100, 100, 100] 0.025 0.10 5).projected_cash_flows.length = 5 ∧
      (dcfOkResult [100, 100, 100] 0.025 0.10 5).projected_cash_flows.getD 2 0 =
        (filterPositive [100, 100, 100]).getLastD 0 *
          (1 + (dcfOkResult [100, 100, 100] 0.025 0.10 5).forecast_growth_rate) ^ (2 + 1) :=
  ⟨(C4_projection_length_and_values [100, 100, 100] 0.025 0.10 5 _ dcf_eval_const).1,
   (C4_projection_length_and_values [100, 100, 100] 0.025 0.10 5 _ dcf_eval_const).2 2
      (by norm_num)⟩

/-- C5: for every accepted input, `terminal_value` equals the final projected
cash flow grown one period at `terminal_growth_rate` and capitalized at
`discount_rate - terminal_growth_rate`, and `pv_terminal_value` equals
`terminal_value / (1 + discount_rate)^forecast_years`. -/
theorem C5_terminal_value_formulas
    (cash_flows : List ℝ) (tgr dr : ℝ) (fy : ℕ) (res : DCFResult)
    (h : _calculate_dcf_value cash_flows tgr dr fy = .ok res) :
    res.terminal_value =
        res.projected_cash_flows.getLastD 0 * (1 + tgr) / (dr - tgr) ∧
      res.pv_terminal_value = res.terminal_value / (1 + dr) ^ fy := by
  obtain ⟨-, -, -, -, rfl⟩ := dcf_ok_inv h
  exact ⟨rfl, rfl⟩

/-- Witness for C5 at `[100, 100, 100]`, default parameters. -/
theorem C5_terminal_value_formulas_witness :
    (dcfOkResult [100, 100, 100] 0.025 0.10 5).terminal_value =
        (dcfOkResult [100, 100, 100] 0.025 0.10 5).projected_cash_flows.getLastD 0 *
          (1 + 0.025) / (0.10 - 0.025) ∧
      (dcfOkResult [100, 100, 100] 0.025 0.10 5).pv_terminal_value =
        (dcfOkResult [100, 100, 100] 0.025 0.10 5).terminal_value / (1 + 0.10) ^ 5 :=
  C5_terminal_value_formulas [100, 100, 100] 0.025 0.10 5 _ dcf_eval_const

/-- C6: for every cash-flow sequence of length < 2, and for every sequence
with fewer than 2 strictly-positive values after filtering, the engine
returns an `insufficientData` error (one of the two source messages) and
produces no valuation result. -/
theorem C6_insufficient_data_error
    (cash_flows : List ℝ) (tgr dr : ℝ) (fy : ℕ)
    (h : cash_flows.length < 2 ∨ (filterPositive cash_flows).length < 2) :
    _calculate_dcf_value cash_flows tgr dr fy =
        .error (.insufficientData "Insufficient cash flow data for DCF calculation") ∨
      _calculate_dcf_value cash_flows tgr dr fy =
        .error (.insufficientData "Insufficient positive cash flow data") := by
  by_cases hlen : cash_flows.length < 2
  · left
    simp [_calculate_dcf_value, hlen]
  · right
    have hflen : (filterPositive cash_flows).length < 2 := h.resolve_left hlen
    simp [_calculate_dcf_value, hlen, hflen]

/-- Witness for C6 at the single-element sequence `[100]`. -/
theorem C6_insufficient_data_error_witness :
    _calculate_dcf_value [100] 0.025 0.10 5 =
        .error (.insufficientData "Insufficient cash flow data for DCF calculation") ∨
      _calculate_dcf_value [100] 0.025 0.10 5 =
        .error (.insufficientData "Insufficient positive cash flow data") :=
  C6_insufficient_data_error [100] 0.025 0.10 5 (Or.inl (by norm_num))

/-- C7 counterexample: the claim fails for sequences whose positive
subsequence is too short: `[100, -50]` fails the positive-count check with
the message `"Insufficient positive cash flow data"`, while its positive
subsequence `[100]` fails the length check with the other message, so the
two results differ. -/
theorem C7_filter_invariance_counterexample :
    _calculate_dcf_value [100, -50] 0.025 0.10 5 ≠
      _calculate_dcf_value (filterPositive [100, -50]) 0.025 0.10 5 := by
  have hfp : filterPositive ([100, -50] : List ℝ) = [100] := by norm_num [filterPositive]
  have hl : _calculate_dcf_value [100, -50] 0.025 0.10 5 =
      .error (.insufficientData "Insufficient positive cash flow data") := by
    simp [_calculate_dcf_value, hfp]
  have hr : _calculate_dcf_value [100] 0.025 0.10 5 =
      .error (.insufficientData "Insufficient cash flow data for DCF calculation") := by
    simp [_calculate_dcf_value]
  rw [hfp, hl, hr]
  simp only [ne_eq, Except.error.injEq]
  decide

/-- C7 amended: for every sequence that retains at least 2 strictly-positive
values after filtering, removing the non-positive entries before calling the
engine does not change the result. -/
theorem C7_filter_invariance_amended
    (cash_flows : List ℝ) (tgr dr : ℝ) (fy : ℕ)
    (h : 2 ≤ (filterPositive cash_flows).length) :
    _calculate_dcf_value cash_flows tgr dr fy =
      _calculate_dcf_value (filterPositive cash_flows) tgr dr fy := by
  have hlen : ¬ cash_flows.length < 2 := not_lt.2 (le_trans h (length_filterPositive_le _))
  have hflen : ¬ (filterPositive cash_flows).length < 2 := not_lt.2 h
  simp only [_calculate_dcf_value, dcfOkResult, filterPositive_idem, if_neg hlen, if_neg hflen]

/-- Witness for C7 at `[100, -50, 110, 121]`, whose positive subsequence is
`[100, 110, 121]`. -/
theorem C7_filter_invariance_amended_witness :
    _calculate_dcf_value [100, -50, 110, 121] 0.025 0.10 5 =
      _calculate_dcf_value (filterPositive [100, -50, 110, 121]) 0.025 0.10 5 :=
  C7_filter_invariance_amended [100, -50, 110, 121] 0.025 0.10 5 (by norm_num [filterPositive])

/-- C9 counterexample: at `discount_rate = terminal_growth_rate` (here both
0.025, cash-flow preconditions met) the engine does NOT return a result: the
terminal-value division raises `ZeroDivisionError`. -/
theorem C9_no_validation_counterexample :
    _calculate_dcf_value [100, 100, 100] 0.025 0.025 5 = .error .zeroDivision :=
  dcf_discount_eq_terminal (by rw [filterPositive_const]; norm_num) (by norm_num) (by norm_num)

/-- C9 amended: when `discount_rate < terminal_growth_rate` strictly (with
`terminal_growth_rate > -1` and `discount_rate ≠ -1`) the engine performs no
validation and silently returns a result whose terminal value is negative;
when `discount_rate = terminal_growth_rate` it instead fails with a
division-by-zero error, not a validation error. -/
theorem C9_degenerate_terminal_value :
    (∀ (cash_flows : List ℝ) (tgr dr : ℝ) (fy : ℕ),
        2 ≤ (filterPositive cash_flows).length → fy ≠ 0 → -1 < tgr → dr < tgr →
        (1 : ℝ) + dr ≠ 0 →
        _calculate_dcf_value cash_flows tgr dr fy =
            .ok (dcfOkResult cash_flows tgr dr fy) ∧
          (dcfOkResult cash_flows tgr dr fy).terminal_value < 0) ∧
      ∀ (cash_flows : List ℝ) (tgr : ℝ) (fy : ℕ),
        2 ≤ (filterPositive cash_flows).length → fy ≠ 0 →
        _calculate_dcf_value cash_flows tgr tgr fy = .error .zeroDivision := by
  constructor
  · intro cash_flows tgr dr fy h2 hfy htgr hdr h1
    have hne : filterPositive cash_flows ≠ [] := List.length_pos.1 (by omega)
    have hd : dr - tgr ≠ 0 := sub_ne_zero_of_ne (ne_of_lt hdr)
    refine ⟨dcf_eq_ok h2 hfy hd h1, ?_⟩
    rw [terminal_value_formula hfy]
    have hL := getLastD_pos_of_all_pos hne fun x hx => pos_of_mem_filterPositive hx
    have hg := neg_one_lt_forecast_growth hne
    exact div_neg_of_pos_of_neg
      (mul_pos (mul_pos hL (pow_pos (by linarith) _)) (by linarith))
      (sub_neg.2 hdr)
  · intro cash_flows tgr fy h2 hfy
    exact dcf_discount_eq_terminal h2 hfy (sub_self tgr)

/-- Witness for C9: `discount_rate = 0 < 0.025 = terminal_growth_rate` gives
an accepted computation with a negative terminal value, and
`discount_rate = terminal_growth_rate = 0.025` gives a division error. -/
theorem C9_degenerate_terminal_value_witness :
    (_calculate_dcf_value [100, 100, 100] 0.025 0 5 =
        .ok (dcfOkResult [100, 100, 100] 0.025 0 5) ∧
      (dcfOkResult [100, 100, 100] 0.025 0 5).terminal_value < 0) ∧
      _calculate_dcf_value [100, 100, 100] 0.025 0.025 3 = .error .zeroDivision :=
  ⟨C9_degenerate_terminal_value.1 [100, 100, 100] 0.025 0 5
      (by rw [filterPositive_const]; norm_num) (by norm_num) (by norm_num) (by norm_num)
      (by norm_num),
   C9_degenerate_terminal_value.2 [100, 100, 100] 0.025 3
      (by rw [filterPositive_const]; norm_num) (by norm_num)⟩

/-- C10 counterexample: under the claim's stated preconditions (at least 2
strictly-positive cash flows, `forecast_years ≥ 1`,
`discount_rate ≠ terminal_growth_rate`) the function can still fail: with
`discount_rate = -1` the present-value division divides by
`(1 + discount_rate) ** i = 0` and raises `ZeroDivisionError`. -/
theorem C10_totality_counterexample :
    _calculate_dcf_value [100, 100] 0.025 (-1) 1 = .error .zeroDivision :=
  dcf_discount_neg_one (by norm_num [filterPositive]) (by norm_num) (by norm_num)

/-- C10 amended: under the preconditions "at least 2 strictly-positive cash
flows", "forecast_years ≥ 1", "discount_rate ≠ terminal_growth_rate" AND
"discount_rate ≠ -1", every list access and division is defined and the
function returns a result; with `forecast_years = 0` the terminal-value step
takes the last element of an empty projection list, so no result is
returned. -/
theorem C10_totality_amended :
    (∀ (cash_flows : List ℝ) (tgr dr : ℝ) (fy : ℕ),
        2 ≤ (filterPositive cash_flows).length → fy ≠ 0 → dr - tgr ≠ 0 →
        (1 : ℝ) + dr ≠ 0 →
        _calculate_dcf_value cash_flows tgr dr fy =
          .ok (dcfOkResult cash_flows tgr dr fy)) ∧
      ∀ (cash_flows : List ℝ) (tgr dr : ℝ),
        2 ≤ (filterPositive cash_flows).length →
        _calculate_dcf_value cash_flows tgr dr 0 = .error .indexError :=
  ⟨fun _ _ _ _ h2 hfy hd h1 => dcf_eq_ok h2 hfy hd h1,
   fun _ _ _ h2 => dcf_fy_zero h2⟩

/-- Witness for C10: default parameters return a result; `forecast_years = 0`
returns the index error. -/
theorem C10_totality_amended_witness :
    _calculate_dcf_value [100, 100, 100] 0.025 0.10 5 =
        .ok (dcfOkResult [100, 100, 100] 0.025 0.10 5) ∧
      _calculate_dcf_value [100, 100, 100] 0.025 0.10 0 = .error .indexError :=
  ⟨C10_totality_amended.1 [100, 100, 100] 0.025 0.10 5
      (by rw [filterPositive_const]; norm_num) (by norm_num) (by norm_num) (by norm_num),
   C10_totality_amended.2 [100, 100, 100] 0.025 0.10
      (by rw [filterPositive_const]; norm_num)⟩

/-- C8 counterexample: the engine accepts discount rates on both sides of the
terminal growth rate, and there monotonicity fails: with cash flows
`[100, 100, 100]`, `terminal_growth_rate = 0.025`, `forecast_years = 1`, the
discount rates `r1 = 0 < r2 = 0.05` both produce results, yet the enterprise
value at `r2` (+4000) is strictly GREATER than at `r1` (-4000). -/
theorem C8_strictly_decreasing_counterexample :
    _calculate_dcf_value [100, 100, 100] 0.025 0 1 =
        .ok (dcfOkResult [100, 100, 100] 0.025 0 1) ∧
      _calculate_dcf_value [100, 100, 100] 0.025 0.05 1 =
        .ok (dcfOkResult [100, 100, 100] 0.025 0.05 1) ∧
      (dcfOkResult [100, 100, 100] 0.025 0 1).enterprise_value <
        (dcfOkResult [100, 100, 100] 0.025 0.05 1).enterprise_value := by
  refine ⟨dcf_eq_ok (by rw [filterPositive_const]; norm_num) (by norm_num) (by norm_num)
      (by norm_num),
    dcf_eq_ok (by rw [filterPositive_const]; norm_num) (by norm_num) (by norm_num)
      (by norm_num), ?_⟩
  rw [enterprise_value_formula (by norm_num), enterprise_value_formula (by norm_num),
    filterPositive_const, forecast_growth_const]
  have hL : ([100, 100, 100] : List ℝ).getLastD 0 = 100 := by simp
  rw [hL]
  norm_num [Finset.sum_range_one]

/-- C8 amended: holding the cash flows, `terminal_growth_rate` and
`forecast_years` fixed, the enterprise value is strictly decreasing in the
discount rate on the valid-parameter region `terminal_growth_rate < r1 < r2`
(with `terminal_growth_rate > -1`): whenever both discount rates exceed the
terminal growth rate, the higher rate yields the strictly smaller enterprise
value. -/
theorem C8_strictly_decreasing_in_discount_rate
    (cash_flows : List ℝ) (tgr r1 r2 : ℝ) (fy : ℕ) (res1 res2 : DCFResult)
    (htgr : -1 < tgr) (hr1 : tgr < r1) (hr12 : r1 < r2)
    (e1 : _calculate_dcf_value cash_flows tgr r1 fy = .ok res1)
    (e2 : _calculate_dcf_value cash_flows tgr r2 fy = .ok res2) :
    res2.enterprise_value < res1.enterprise_value := by
  obtain ⟨h2, hfy, -, -, rfl⟩ := dcf_ok_inv e1
  obtain ⟨-, -, -, -, rfl⟩ := dcf_ok_inv e2
  have hne : filterPositive cash_flows ≠ [] := List.length_pos.1 (by omega)
  have hL : 0 < (filterPositive cash_flows).getLastD 0 :=
    getLastD_pos_of_all_pos hne fun x hx => pos_of_mem_filterPositive hx
  have hg : -1 < forecast_growth_rate_of (filterPositive cash_flows) :=
    neg_one_lt_forecast_growth hne
  have h1r1 : (0 : ℝ) < 1 + r1 := by linarith
  have h1r2 : (0 : ℝ) < 1 + r2 := by linarith
  rw [enterprise_value_formula hfy, enterprise_value_formula hfy]
  have hsum : (∑ k ∈ Finset.range fy,
      (filterPositive cash_flows).getLastD 0 *
        (1 + forecast_growth_rate_of (filterPositive cash_flows)) ^ (k + 1) /
        (1 + r2) ^ (k + 1)) <
      ∑ k ∈ Finset.range fy,
        (filterPositive cash_flows).getLastD 0 *
          (1 + forecast_growth_rate_of (filterPositive cash_flows)) ^ (k + 1) /
          (1 + r1) ^ (k + 1) := by
    refine Finset.sum_lt_sum_of_nonempty (Finset.nonempty_range_iff.2 hfy) fun k _ => ?_
    have hnum : 0 < (filterPositive cash_flows).getLastD 0 *
        (1 + forecast_growth_rate_of (filterPositive cash_flows)) ^ (k + 1) :=
      mul_pos hL (pow_pos (by linarith) _)
    exact div_lt_div_of_pos_left hnum (pow_pos h1r1 _)
      (pow_lt_pow_left₀ (by linarith) h1r1.le (Nat.succ_ne_zero k))
  have hterm : (filterPositive cash_flows).getLastD 0 *
        (1 + forecast_growth_rate_of (filterPositive cash_flows)) ^ fy * (1 + tgr) /
        ((r2 - tgr) * (1 + r2) ^ fy) <
      (filterPositive cash_flows).getLastD 0 *
        (1 + forecast_growth_rate_of (filterPositive cash_flows)) ^ fy * (1 + tgr) /
        ((r1 - tgr) * (1 + r1) ^ fy) := by
    have hnum : 0 < (filterPositive cash_flows).getLastD 0 *
        (1 + forecast_growth_rate_of (filterPositive cash_flows)) ^ fy * (1 + tgr) :=
      mul_pos (mul_pos hL (pow_pos (by linarith) _)) (by linarith)
    have hden1 : 0 < (r1 - tgr) * (1 + r1) ^ fy :=
      mul_pos (sub_pos.2 hr1) (pow_pos h1r1 _)
    have hlt : (r1 - tgr) * (1 + r1) ^ fy < (r2 - tgr) * (1 + r2) ^ fy :=
      mul_lt_mul'' (sub_lt_sub_right hr12 tgr)
        (pow_lt_pow_left₀ (by linarith) h1r1.le hfy) (sub_pos.2 hr1).le (pow_pos h1r1 _).le
    exact div_lt_div_of_pos_left hnum hden1 hlt
  exact add_lt_add hsum hterm

/-- Witness for C8 at `[100, 100, 100]`, `terminal_growth_rate = 0.025`,
discount rates `0.10 < 0.12`, `forecast_years = 5`. -/
theorem C8_strictly_decreasing_in_discount_rate_witness :
    (dcfOkResult [100, 100, 100] 0.025 0.12 5).enterprise_value <
      (dcfOkResult [100, 100, 100] 0.025 0.10 5).enterprise_value :=
  C8_strictly_decreasing_in_discount_rate [100, 100, 100] 0.025 0.10 0.12 5 _ _
    (by norm_num) (by norm_num) (by norm_num)
    dcf_eval_const
    (dcf_eq_ok (by rw [filterPositive_const]; norm_num) (by norm_num) (by norm_num)
      (by norm_num))
